import Mathlib

/-!
Shallow embedding of `src/final-app.py`, a single-file dashboard script that
loads a town-level demographic table, derives a weighted average-family-size
column, and builds several chart descriptions from UI-selected reshapings of
the table.  Numeric cells are modelled as rationals; the floating-point
NaN/inf produced by a zero denominator is modelled as `none` of `Option ℚ`;
a pandas `KeyError` on a missing column is modelled as `none` of the column
lookup.
-/

/-- Row of the loaded CSV (one town), with the columns the script uses:
`Town`, `Percentage of Women`, `Percentage of Men`,
`Percentage of Youth - 15-24 years`,
`Percentage of Eldelry - 65 or more years`, and the three family-size
bucket columns (1-3, 4-6, 7 or more members). -/
structure TownRow where
  town : String
  pctWomen : ℚ
  pctMen : ℚ
  pctYouth : ℚ
  pctElderly : ℚ
  fam1to3 : ℚ
  fam4to6 : ℚ
  fam7plus : ℚ
deriving DecidableEq, Repr

/-- Generic dataframe view: a `Town` column of names plus named numeric
columns, as used by the sample-data and melting sections of the script. -/
structure DF where
  towns : List String
  numCols : List (String × List ℚ)
deriving DecidableEq, Repr

/-- Column lookup `df[name]`; `none` models a pandas `KeyError`. -/
def getCol (df : DF) (name : String) : Option (List ℚ) :=
  (df.numCols.find? (fun c => c.1 = name)).map (fun c => c.2)

/-- Lines 89-97: elementwise formula for the derived column
`df['Average family size']`.  The result for one row is
`(1.5*b1 + 5*b2 + 7*b3) / (b1 + b2 + b3)`; when the denominator is zero the
float division yields NaN, modelled as `none`. -/
def avgFamilySize (b1 b2 b3 : ℚ) : Option ℚ :=
  if b1 + b2 + b3 = 0 then none
  else some ((1.5 * b1 + 5 * b2 + 7 * b3) / (b1 + b2 + b3))

/-- Lines 214-222: the second, textually repeated computation of
`df['Average family size']`, transcribed from its own site. -/
def avgFamilySizeSecond (b1 b2 b3 : ℚ) : Option ℚ :=
  if b1 + b2 + b3 = 0 then none
  else some ((1.5 * b1 + 5 * b2 + 7 * b3) / (b1 + b2 + b3))

/-- Table-level effect of lines 89-97: each row is paired with its derived
`Average family size` value. -/
def withAvgFamilySize (rows : List TownRow) : List (TownRow × Option ℚ) :=
  rows.map (fun r => (r, avgFamilySize r.fam1to3 r.fam4to6 r.fam7plus))

/-- Table-level effect of lines 214-222 (the second recomputation site). -/
def withAvgFamilySizeSecond (rows : List TownRow) : List (TownRow × Option ℚ) :=
  rows.map (fun r => (r, avgFamilySizeSecond r.fam1to3 r.fam4to6 r.fam7plus))

/-- Lines 58-70: truncation flow.  The slider value `n` selects the first
`n` entries of the `Town` / `Percentage of Women` / `Percentage of Men`
columns (`df['Town'][:num_towns]` and friends), collected into `df_plot`. -/
def truncationPlot (rows : List TownRow) (n : Nat) : DF :=
  { towns := (rows.map (fun r => r.town)).take n
    numCols :=
      [("Percentage of Women", (rows.map (fun r => r.pctWomen)).take n),
       ("Percentage of Men", (rows.map (fun r => r.pctMen)).take n)] }

/-- Lines 73 and 198: `df_plot.melt(id_vars='Town', ...)`.  For each value
column in order, pandas emits one long-format row per town, pairing the
town with the column name and the cell value (column-major order). -/
def melt (df : DF) (valueCols : List String) : List (String × String × ℚ) :=
  valueCols.flatMap (fun c =>
    match getCol df c with
    | some vals => (df.towns.zip vals).map (fun p => (p.1, c, p.2))
    | none => [])

/-- Row of the first scatter plot's source `df_plot` (line 107):
town name, derived average family size, elderly percentage. -/
structure ScatterRow where
  town : String
  avgFam : Option ℚ
  elderly : ℚ
deriving DecidableEq, Repr

/-- Line 107: `df_plot = df[['Town', 'Average family size',
'Percentage of Eldelry - 65 or more years']]` after the derivation. -/
def scatterPlotTable (rows : List TownRow) : List ScatterRow :=
  rows.map (fun r =>
    { town := r.town
      avgFam := avgFamilySize r.fam1to3 r.fam4to6 r.fam7plus
      elderly := r.pctElderly })

/-- Lines 122-132: the annotation loop.  For each selected town, in order,
one overlay trace is added whose points are the rows of `df_plot` whose
`Town` equals the selected name. -/
def annotationTraces (tbl : List ScatterRow) (selected : List String) :
    List (List ScatterRow) :=
  selected.map (fun t => tbl.filter (fun row => row.town = t))

/-- All highlighted overlay markers produced by the annotation loop,
in the order they are added to the figure. -/
def highlightedMarkers (tbl : List ScatterRow) (selected : List String) :
    List ScatterRow :=
  (annotationTraces tbl selected).flatten

/-- The scatter figure of lines 110-132: the base cloud built from
`df_plot` (line 110), plus one overlay trace per selected town. -/
structure ScatterFig where
  base : List ScatterRow
  overlays : List (List ScatterRow)
deriving DecidableEq, Repr

/-- Lines 110-132 assembled: base cloud, then the annotation loop. -/
def buildScatterFig (tbl : List ScatterRow) (selected : List String) :
    ScatterFig :=
  { base := tbl, overlays := annotationTraces tbl selected }

/-- Lines 140-145: the fixed 3-town sample dataset, with only the three
columns the dict literal defines. -/
def sampleData : DF :=
  { towns := ["Town A", "Town B", "Town C"]
    numCols :=
      [("Percentage of Women", [55, 60, 65]),
       ("Percentage of Men", [45, 40, 35])] }

/-- Line 145: `df = pd.DataFrame(data)` rebinds the script's `df` variable
to the sample, discarding the reference to the loaded table; every later
use of `df` sees the sample regardless of what was loaded. -/
def dfAfterSampleRebinding (_dfLoaded : DF) : DF :=
  sampleData

/-- Lines 158-166: the pie-chart data.  `df[df['Town']==t].iloc[0]` takes
the first row whose town matches (an error, `none`, if there is none), and
the two slices are that row's raw `Percentage of Women` and
`Percentage of Men` cells, labelled `Women` and `Men`. -/
def pieData (df : DF) (t : String) : Option (List (String × ℚ)) :=
  match df.towns.findIdx? (fun s => s = t),
        getCol df "Percentage of Women", getCol df "Percentage of Men" with
  | some i, some ws, some ms =>
    match ws[i]?, ms[i]? with
    | some w, some m => some [("Women", w), ("Men", m)]
    | _, _ => none
  | _, _, _ => none

/-! ### Concrete data used by witness instances -/

/-- Small concrete table of town rows, used to instantiate the theorems. -/
def demoRows : List TownRow :=
  [{ town := "Aabadiyeh", pctWomen := 52, pctMen := 48, pctYouth := 20,
     pctElderly := 10, fam1to3 := 2, fam4to6 := 1, fam7plus := 1 },
   { town := "Aachqout", pctWomen := 51, pctMen := 49, pctYouth := 25,
     pctElderly := 8, fam1to3 := 0, fam4to6 := 0, fam7plus := 0 },
   { town := "Fourzol", pctWomen := 50, pctMen := 50, pctYouth := 22,
     pctElderly := 12, fam1to3 := 3, fam4to6 := 4, fam7plus := 5 }]

/-! ### C1 -/

/-- C1: for every town row whose bucket sum is non-zero, the derived
`Average family size` column holds exactly
`(1.5*b1 + 5*b2 + 7*b3) / (b1 + b2 + b3)` at that row's position. -/
theorem avg_family_size_column_correct (rows : List TownRow) (i : Nat)
    (r : TownRow) (hi : rows[i]? = some r)
    (hs : r.fam1to3 + r.fam4to6 + r.fam7plus ≠ 0) :
    (withAvgFamilySize rows)[i]? =
      some (r, some ((1.5 * r.fam1to3 + 5 * r.fam4to6 + 7 * r.fam7plus) /
        (r.fam1to3 + r.fam4to6 + r.fam7plus))) := by
  unfold withAvgFamilySize
  rw [List.getElem?_map, hi]
  simp [avgFamilySize, hs]

/-- Witness for C1 at the first demo row, whose bucket sum is `4`. -/
theorem avg_family_size_column_correct_witness :
    (withAvgFamilySize demoRows)[0]? =
      some (({ town := "Aabadiyeh", pctWomen := 52, pctMen := 48,
               pctYouth := 20, pctElderly := 10, fam1to3 := 2, fam4to6 := 1,
               fam7plus := 1 } : TownRow),
            some (((1.5 * 2 + 5 * 1 + 7 * 1) / (2 + 1 + 1) : ℚ))) :=
  avg_family_size_column_correct demoRows 0
    { town := "Aabadiyeh", pctWomen := 52, pctMen := 48, pctYouth := 20,
      pctElderly := 10, fam1to3 := 2, fam4to6 := 1, fam7plus := 1 }
    rfl (by norm_num)

/-! ### C3 -/

/-- C3: a row whose three bucket values are all zero still gets an entry in
the derived column — the computation is total — and the entry is the
not-applicable sentinel (`none`, modelling the float NaN), not an error. -/
theorem avg_family_size_zero_buckets_nan (rows : List TownRow) (i : Nat)
    (r : TownRow) (hi : rows[i]? = some r) (h1 : r.fam1to3 = 0)
    (h2 : r.fam4to6 = 0) (h3 : r.fam7plus = 0) :
    (withAvgFamilySize rows)[i]? = some (r, none) := by
  unfold withAvgFamilySize
  rw [List.getElem?_map, hi]
  simp [avgFamilySize, h1, h2, h3]

/-- Witness for C3 at the second demo row, whose buckets are `(0,0,0)`. -/
theorem avg_family_size_zero_buckets_nan_witness :
    (withAvgFamilySize demoRows)[1]? =
      some ({ town := "Aachqout", pctWomen := 51, pctMen := 49,
              pctYouth := 25, pctElderly := 8, fam1to3 := 0, fam4to6 := 0,
              fam7plus := 0 }, none) :=
  avg_family_size_zero_buckets_nan demoRows 1 _ rfl rfl rfl rfl

/-! ### C4 -/

/-- C4: whenever the derived average family size is defined and the buckets
are non-negative, it lies in `[1.5, 7]`, reaching `1.5` only when all mass
is in the first bucket and `7` only when all mass is in the third; and the
concrete buckets `(2, 0, 0)` give exactly `1.5`. -/
theorem avg_family_size_bounds (b1 b2 b3 v : ℚ) (h1 : 0 ≤ b1) (h2 : 0 ≤ b2)
    (h3 : 0 ≤ b3) (hv : avgFamilySize b1 b2 b3 = some v) :
    (1.5 ≤ v ∧ v ≤ 7) ∧ (v = 1.5 → b2 = 0 ∧ b3 = 0) ∧
      (v = 7 → b1 = 0 ∧ b2 = 0) ∧ avgFamilySize 2 0 0 = some 1.5 := by
  have hs : b1 + b2 + b3 ≠ 0 := by
    intro h0
    simp [avgFamilySize, h0] at hv
  have hpos : 0 < b1 + b2 + b3 := lt_of_le_of_ne (by linarith) (Ne.symm hs)
  have hveq : v = (1.5 * b1 + 5 * b2 + 7 * b3) / (b1 + b2 + b3) := by
    simp [avgFamilySize, hs] at hv
    exact hv.symm
  subst hveq
  refine ⟨⟨?_, ?_⟩, ?_, ?_, ?_⟩
  · rw [le_div_iff₀ hpos]; linarith
  · rw [div_le_iff₀ hpos]; linarith
  · intro hv15
    rw [div_eq_iff (ne_of_gt hpos)] at hv15
    constructor <;> linarith
  · intro hv7
    rw [div_eq_iff (ne_of_gt hpos)] at hv7
    constructor <;> linarith
  · norm_num [avgFamilySize]

/-- Witness for C4 at buckets `(1, 1, 1)`, whose average is `9/2`. -/
theorem avg_family_size_bounds_witness :
    avgFamilySize 2 0 0 = some 1.5 :=
  (avg_family_size_bounds 1 1 1 (9 / 2) (by norm_num) (by norm_num)
    (by norm_num) (by norm_num [avgFamilySize])).2.2.2

/-! ### C9 -/

/-- C9: the two textual recomputations of the `Average family size` column
(lines 89-97 and lines 214-222) are the same function of the three bucket
columns, and applied to the same table they produce identical derived
columns. -/
theorem avg_family_size_recomputations_agree :
    (∀ b1 b2 b3 : ℚ, avgFamilySize b1 b2 b3 = avgFamilySizeSecond b1 b2 b3) ∧
    ∀ rows : List TownRow, withAvgFamilySize rows = withAvgFamilySizeSecond rows :=
  ⟨fun _ _ _ => rfl, fun _ => rfl⟩

/-! ### C2 -/

/-- C2 (code bug evaluation): after line 145 rebinds `df` to the 3-town
sample, every later section reads the sample no matter what was loaded:
the category-flow bar chart's source table has towns
`Town A / Town B / Town C`, and the lookups of the bucket column
`Average family size - 1 to 3 members` (line 214) and of
`Percentage of Youth - 15-24 years` (line 192 option, line 197 subsetting)
fail (`none`, a pandas `KeyError`), so the later charts are not computed
from the full loaded table. -/
theorem sample_rebinding_hijacks_later_charts :
    (∀ dfLoaded : DF,
      (dfAfterSampleRebinding dfLoaded).towns = ["Town A", "Town B", "Town C"]) ∧
    (∀ dfLoaded : DF,
      getCol (dfAfterSampleRebinding dfLoaded)
        "Average family size - 1 to 3 members" = none) ∧
    ∀ dfLoaded : DF,
      getCol (dfAfterSampleRebinding dfLoaded)
        "Percentage of Youth - 15-24 years" = none := by
  refine ⟨fun _ => rfl, ?_, ?_⟩
  · intro dfLoaded
    show getCol sampleData "Average family size - 1 to 3 members" = none
    rfl
  · intro dfLoaded
    show getCol sampleData "Percentage of Youth - 15-24 years" = none
    rfl

/-! ### C5 -/

/-- C5: for any slider value in the widget's range (multiples of 10 between
10 and 70), the truncation flow keeps exactly the first
`min n (number of rows)` entries of the `Town`, `Percentage of Women` and
`Percentage of Men` columns, each entry equal to the corresponding cell of
the loaded table. -/
theorem truncation_flow_first_min_rows (rows : List TownRow) (n : Nat)
    (_hlo : 10 ≤ n) (_hhi : n ≤ 70) (_hstep : n % 10 = 0) :
    ((truncationPlot rows n).towns.length = min n rows.length ∧
      getCol (truncationPlot rows n) "Percentage of Women" =
        some ((rows.map (fun r => r.pctWomen)).take n) ∧
      getCol (truncationPlot rows n) "Percentage of Men" =
        some ((rows.map (fun r => r.pctMen)).take n)) ∧
    ∀ i, i < min n rows.length →
      (truncationPlot rows n).towns[i]? = (rows[i]?).map (fun r => r.town) ∧
      ((rows.map (fun r => r.pctWomen)).take n)[i]? =
        (rows[i]?).map (fun r => r.pctWomen) ∧
      ((rows.map (fun r => r.pctMen)).take n)[i]? =
        (rows[i]?).map (fun r => r.pctMen) := by
  refine ⟨⟨by simp [truncationPlot], rfl, rfl⟩, ?_⟩
  intro i hi
  have hin : i < n := lt_of_lt_of_le hi (Nat.min_le_left _ _)
  refine ⟨?_, ?_, ?_⟩
  · show ((rows.map (fun r => r.town)).take n)[i]? = _
    rw [List.getElem?_take_of_lt hin, List.getElem?_map]
  · rw [List.getElem?_take_of_lt hin, List.getElem?_map]
  · rw [List.getElem?_take_of_lt hin, List.getElem?_map]

/-- Witness for C5: slider value 10 on the 3-row demo table keeps all
3 towns. -/
theorem truncation_flow_first_min_rows_witness :
    (truncationPlot demoRows 10).towns.length = min 10 demoRows.length ∧
    getCol (truncationPlot demoRows 10) "Percentage of Women" =
      some ((demoRows.map (fun r => r.pctWomen)).take 10) ∧
    getCol (truncationPlot demoRows 10) "Percentage of Men" =
      some ((demoRows.map (fun r => r.pctMen)).take 10) :=
  (truncation_flow_first_min_rows demoRows 10 (by decide) (by decide)
    (by decide)).1

/-! ### C6 -/

/-- Helper: a member of `l₁.zip l₂` occurs at a common index of the two
lists. -/
theorem mem_zip_exists_index {α β : Type} {l₁ : List α} {l₂ : List β}
    {p : α × β} (hp : p ∈ l₁.zip l₂) :
    ∃ (j : Nat), l₁[j]? = some p.1 ∧ l₂[j]? = some p.2 := by
  rcases List.mem_iff_getElem?.mp hp with ⟨j, hj⟩
  exact ⟨j, List.getElem?_zip_eq_some.mp hj⟩

/-- C6: melting k selected category columns over a table of m towns yields
exactly k*m long-format rows; each produced row is a (town, category,
value) triple taken from a common index of the town column and the selected
category column; and an empty selection melts to the empty table. -/
theorem melt_shape_and_cells (df : DF) (sel : List String) (m : Nat)
    (hm : df.towns.length = m)
    (hcols : ∀ c ∈ sel, ∃ vals, getCol df c = some vals ∧ vals.length = m) :
    (melt df sel).length = sel.length * m ∧
    (∀ x ∈ melt df sel, x.2.1 ∈ sel ∧ ∃ (j : Nat) (vals : List ℚ),
      df.towns[j]? = some x.1 ∧ getCol df x.2.1 = some vals ∧
        vals[j]? = some x.2.2) ∧
    melt df [] = [] := by
  refine ⟨?_, ?_, rfl⟩
  · induction sel with
    | nil => simp [melt]
    | cons c cs ih =>
      rcases hcols c (List.mem_cons_self c cs) with ⟨vals, hc, hlen⟩
      have hrest := ih (fun d hd => hcols d (List.mem_cons_of_mem c hd))
      show (melt df (c :: cs)).length = (cs.length + 1) * m
      have hsplit : melt df (c :: cs) =
          (df.towns.zip vals).map (fun p => (p.1, c, p.2)) ++ melt df cs := by
        simp only [melt, List.flatMap_cons, hc]
      rw [hsplit, List.length_append, List.length_map, List.length_zip, hm,
        hlen, Nat.min_self, hrest]
      ring
  · intro x hx
    rcases List.mem_flatMap.mp hx with ⟨c, hc, hxc⟩
    rcases hcols c hc with ⟨vals, hcol, hlen⟩
    rw [hcol] at hxc
    rcases List.mem_map.mp hxc with ⟨p, hp, hpx⟩
    rcases mem_zip_exists_index hp with ⟨j, hj1, hj2⟩
    subst hpx
    exact ⟨hc, j, vals, hj1, hcol, hj2⟩

/-- Witness for C6: melting the two gender columns of the 3-town sample
dataset yields 2*3 rows. -/
theorem melt_shape_and_cells_witness :
    (melt sampleData ["Percentage of Women", "Percentage of Men"]).length =
      2 * 3 :=
  (melt_shape_and_cells sampleData
    ["Percentage of Women", "Percentage of Men"] 3 rfl
    (by
      intro c hc
      rcases List.mem_cons.mp hc with rfl | hc2
      · exact ⟨[55, 60, 65], rfl, rfl⟩
      rcases List.mem_cons.mp hc2 with rfl | hc3
      · exact ⟨[45, 40, 35], rfl, rfl⟩
      · cases hc3)).1

/-! ### C7 -/

/-- Helper: the towns of the rows kept by the annotation filter for `t`
are all `t`, so the filtered town column is a replicate of `t`. -/
theorem filter_town_map_eq_replicate (tbl : List ScatterRow) (t : String) :
    (tbl.filter (fun row => row.town = t)).map (fun r => r.town) =
      List.replicate (tbl.filter (fun row => row.town = t)).length t := by
  have hlen : ((tbl.filter (fun row => row.town = t)).map
      (fun r => r.town)).length = (tbl.filter (fun row => row.town = t)).length :=
    List.length_map _ _
  rw [← hlen]
  apply List.eq_replicate_of_mem
  intro b hb
  rcases List.mem_map.mp hb with ⟨r, hr, hbr⟩
  have := List.of_mem_filter hr
  simp only [decide_eq_true_eq] at this
  rw [← hbr]
  exact this

/-- Helper: with pairwise-distinct town names, the annotation filter for a
town present in the table keeps exactly one row. -/
theorem filter_town_length_one (tbl : List ScatterRow) (t : String)
    (hnd : (tbl.map (fun r => r.town)).Nodup)
    (hmem : t ∈ tbl.map (fun r => r.town)) :
    (tbl.filter (fun row => row.town = t)).length = 1 := by
  induction tbl with
  | nil => cases hmem
  | cons r rest ih =>
    rw [List.map_cons, List.nodup_cons] at hnd
    rcases hnd with ⟨hr, hnd2⟩
    by_cases h : r.town = t
    · subst h
      rw [List.filter_cons_of_pos (by simp)]
      have hnil : rest.filter (fun row => row.town = r.town) = [] := by
        rw [List.filter_eq_nil_iff]
        intro x hx
        simp only [decide_eq_true_eq]
        intro hxe
        exact hr (hxe ▸ List.mem_map_of_mem (fun s : ScatterRow => s.town) hx)
      rw [hnil]
      rfl
    · rw [List.filter_cons_of_neg (by simp [h])]
      rw [List.map_cons] at hmem
      rcases List.mem_cons.mp hmem with he | hmem2
      · exact absurd he.symm h
      · exact ih hnd2 hmem2

/-- Helper: a town selected nowhere contributes no highlighted marker. -/
theorem highlight_count_zero (tbl : List ScatterRow) (sel : List String)
    (t0 : String) (h : t0 ∉ sel) :
    ((highlightedMarkers tbl sel).map (fun r => r.town)).count t0 = 0 := by
  induction sel with
  | nil => rfl
  | cons t rest ih =>
    have hne : t0 ≠ t := fun he => h (he ▸ List.mem_cons_self t rest)
    have hrest : t0 ∉ rest := fun hm => h (List.mem_cons_of_mem t hm)
    show (((tbl.filter (fun row => row.town = t)) ++
      highlightedMarkers tbl rest).map (fun r => r.town)).count t0 = 0
    rw [List.map_append, List.count_append, filter_town_map_eq_replicate,
      List.count_replicate, ih hrest]
    simp [hne.symm]

/-- C7: with unique town names in the scatter table, every selected town
(the selection is duplicate-free and drawn from the table, as the
multiselect options are `df['Town'].unique()`) appears exactly once among
the highlighted overlay markers of the annotation loop. -/
theorem annotation_unique_highlight (rows : List TownRow)
    (sel : List String) (t0 : String)
    (hnd : ((scatterPlotTable rows).map (fun r => r.town)).Nodup)
    (hsel : sel.Nodup)
    (hmem : ∀ t ∈ sel, t ∈ (scatterPlotTable rows).map (fun r => r.town))
    (ht0 : t0 ∈ sel) :
    ((highlightedMarkers (scatterPlotTable rows) sel).map
      (fun r => r.town)).count t0 = 1 := by
  induction sel with
  | nil => cases ht0
  | cons t rest ih =>
    rcases List.nodup_cons.mp hsel with ⟨htr, hrest⟩
    show (((scatterPlotTable rows).filter (fun row => row.town = t) ++
      highlightedMarkers (scatterPlotTable rows) rest).map
        (fun r => r.town)).count t0 = 1
    rw [List.map_append, List.count_append, filter_town_map_eq_replicate,
      List.count_replicate]
    rcases List.mem_cons.mp ht0 with rfl | hmem0
    · have h1 := filter_town_length_one (scatterPlotTable rows) t0 hnd
        (hmem t0 (List.mem_cons_self t0 rest))
      have h0 := highlight_count_zero (scatterPlotTable rows) rest t0 htr
      simp [h1, h0]
    · have hne : t0 ≠ t := fun he => htr (he ▸ hmem0)
      have hht := ih hrest (fun x hx => hmem x (List.mem_cons_of_mem t hx)) hmem0
      simp [Ne.symm hne, hht]

/-- Witness for C7: selecting the single town `Aabadiyeh` over the demo
table highlights it exactly once. -/
theorem annotation_unique_highlight_witness :
    ((highlightedMarkers (scatterPlotTable demoRows) ["Aabadiyeh"]).map
      (fun r => r.town)).count "Aabadiyeh" = 1 :=
  annotation_unique_highlight demoRows ["Aabadiyeh"] "Aabadiyeh"
    (by decide) (by decide) (by decide) (by decide)

/-! ### C10 -/

/-- C10: a selected town name absent from the table's `Town` column makes
the annotation loop add an overlay trace with no points at that iteration,
without an error, and the base scatter cloud is the full `df_plot` table
unchanged. -/
theorem missing_town_empty_overlay (tbl : List ScatterRow)
    (sel : List String) (t : String) (i : Nat) (hi : sel[i]? = some t)
    (hmem : t ∉ tbl.map (fun r => r.town)) :
    (buildScatterFig tbl sel).overlays[i]? = some [] ∧
    (buildScatterFig tbl sel).base = tbl := by
  constructor
  · show (annotationTraces tbl sel)[i]? = some []
    unfold annotationTraces
    rw [List.getElem?_map, hi]
    have hnil : tbl.filter (fun row => row.town = t) = [] := by
      rw [List.filter_eq_nil_iff]
      intro x hx
      simp only [decide_eq_true_eq]
      intro hxe
      apply hmem
      rw [← hxe]
      exact List.mem_map_of_mem (fun s : ScatterRow => s.town) hx
    simp [hnil]
  · rfl

/-- Witness for C10: the name `Nowhere` is not in the demo table, so its
overlay trace is empty and the base cloud is untouched. -/
theorem missing_town_empty_overlay_witness :
    (buildScatterFig (scatterPlotTable demoRows) ["Nowhere"]).overlays[0]? =
      some [] ∧
    (buildScatterFig (scatterPlotTable demoRows) ["Nowhere"]).base =
      scatterPlotTable demoRows :=
  missing_town_empty_overlay (scatterPlotTable demoRows) ["Nowhere"]
    "Nowhere" 0 rfl (by decide)

/-! ### C8 -/

/-- C8: the two pie slices for a selected town are the raw
`Percentage of Women` and `Percentage of Men` cells of the first matching
row, with no renormalization, so the slice values sum to exactly
women% + men%; and on the fixed sample dataset, selecting `Town B` yields
exactly the two slices Women=60 and Men=40. -/
theorem pie_chart_raw_values (df : DF) (t : String) (i : Nat)
    (ws ms : List ℚ) (w m : ℚ)
    (hidx : df.towns.findIdx? (fun s => s = t) = some i)
    (hw : getCol df "Percentage of Women" = some ws)
    (hm : getCol df "Percentage of Men" = some ms)
    (hwi : ws[i]? = some w) (hmi : ms[i]? = some m) :
    pieData df t = some [("Women", w), ("Men", m)] ∧
    (([("Women", w), ("Men", m)] : List (String × ℚ)).map Prod.snd).sum =
      w + m ∧
    pieData sampleData "Town B" = some [("Women", 60), ("Men", 40)] := by
  refine ⟨?_, by simp, rfl⟩
  unfold pieData
  rw [hidx, hw, hm]
  simp [hwi, hmi]

/-- Witness for C8: selecting `Town A` on the sample dataset yields the
raw slices Women=55 and Men=45. -/
theorem pie_chart_raw_values_witness :
    pieData sampleData "Town A" = some [("Women", 55), ("Men", 45)] :=
  (pie_chart_raw_values sampleData "Town A" 0 [55, 60, 65] [45, 40, 35]
    55 45 rfl rfl rfl rfl rfl).1
